import Mathlib

/-!
Shallow embedding of the feed ranking / aggregation engine of
`src/server.js` (campus-confessions).

Timestamps are modelled as rationals on SQLite's julian-day scale
(fractional days), which is what `julianday` returns and what the
`datetime(...)` comparisons are monotone in.  SQL numeric expressions are
modelled over `ℚ`; a SQL expression that can be NULL (division by zero
yields NULL in SQLite) is modelled as `Option ℚ`, with NULL comparing
below every non-NULL value, as in SQLite's ORDER BY.
-/

namespace CampusConfessions

/-- A row of the `posts` table (CREATE TABLE posts, src/server.js). -/
structure Post where
  id : Nat
  text : String
  mood : String
  likes : Nat
  reposts : Nat
  image : Option String
  timestamp : ℚ
  deriving DecidableEq

/-- A row of the `reactions` table. -/
structure Reaction where
  id : Nat
  post_id : Nat
  type : String
  timestamp : ℚ
  deriving DecidableEq

/-- A row of the `replies` table. -/
structure Reply where
  id : Nat
  post_id : Nat
  text : String
  image : Option String
  timestamp : ℚ
  deriving DecidableEq

/-- `SELECT key, COUNT(*) ... GROUP BY key`: one `(key, count)` pair per
distinct key occurring in `l`. -/
def countGroupKey (l : List α) (key : α → Nat) : List (Nat × Nat) :=
  ((l.map key).dedup).map (fun k => (k, (l.filter (fun x => key x == k)).length))

/-- `LEFT JOIN` on the key followed by `COALESCE(count, 0)`: look the key up
in a grouped count table, defaulting to `0` when no row matches. -/
def lookupCount (t : List (Nat × Nat)) (k : Nat) : Nat :=
  match t.find? (fun kv => kv.1 == k) with
  | some kv => kv.2
  | none => 0

/-- The per-post grouped reaction counts restricted to reactions passing `p`
(the sub-selects `r`, `love_count`, `happy_count`, `angry_count`,
`sad_count` of `baseQuery`). -/
def countGroup (rs : List Reaction) (p : Reaction → Bool) : List (Nat × Nat) :=
  countGroupKey (rs.filter p) Reaction.post_id

/-- The sub-select `rep` of `baseQuery`: replies grouped by `post_id`. -/
def replyCountGroup (reps : List Reply) : List (Nat × Nat) :=
  countGroupKey reps Reply.post_id

/-- One output row of `baseQuery`: the post together with its COALESCEd
derived counters.  `happy_count` is the source's column name; it counts
reactions of type `"haha"` (see the `happy_count` LEFT JOIN). -/
structure Row where
  post : Post
  reaction_count : Nat
  reply_count : Nat
  love_count : Nat
  happy_count : Nat
  angry_count : Nat
  sad_count : Nat
  deriving DecidableEq

/-- The SELECT list of `baseQuery` for one post: each counter is the LEFT
JOIN of the corresponding grouped sub-select, COALESCEd to `0`. -/
def mkRow (rs : List Reaction) (reps : List Reply) (p : Post) : Row :=
  { post := p
    reaction_count := lookupCount (countGroup rs (fun _ => true)) p.id
    reply_count := lookupCount (replyCountGroup reps) p.id
    love_count := lookupCount (countGroup rs (fun r => r.type == "love")) p.id
    happy_count := lookupCount (countGroup rs (fun r => r.type == "haha")) p.id
    angry_count := lookupCount (countGroup rs (fun r => r.type == "angry")) p.id
    sad_count := lookupCount (countGroup rs (fun r => r.type == "sad")) p.id }

/-- `COALESCE(r.reaction_count, 0) + posts.reposts + posts.likes +
COALESCE(rep.reply_count, 0)` — the engagement sum used by `rising`,
`controversial`, `top` and `hot`. -/
def engagement (r : Row) : Nat :=
  r.reaction_count + r.post.reposts + r.post.likes + r.reply_count

/-- The `controversial` CASE expression: `(angry+sad)/(love+happy)` when
`love+happy > 0`, else `0`. -/
def controversyKey (r : Row) : ℚ :=
  if 0 < r.love_count + r.happy_count then
    ((r.angry_count : ℚ) + (r.sad_count : ℚ)) / ((r.love_count : ℚ) + (r.happy_count : ℚ))
  else 0

/-- The `best` ORDER BY expression:
`posts.likes + posts.reposts * 2 + reaction_count * 1.5 + reply_count * 0.5`. -/
def bestScore (r : Row) : ℚ :=
  (r.post.likes : ℚ) + (r.post.reposts : ℚ) * 2
    + (r.reaction_count : ℚ) * 1.5 + (r.reply_count : ℚ) * 0.5

/-- The `hot` ORDER BY expression: `engagement * 1000.0 /
(julianday("now") - julianday(posts.timestamp))`.  The julianday difference
is in fractional DAYS.  In SQLite a division by zero evaluates to NULL,
modelled as `none`. -/
def hotScore (now : ℚ) (r : Row) : Option ℚ :=
  if now - r.post.timestamp = 0 then none
  else some ((engagement r : ℚ) * 1000 / (now - r.post.timestamp))

/-- The branches of `switch(sortType)`; `trendingDefault` is the shared
`case 'trending': default:` branch. -/
inductive SortType where
  | new
  | rising
  | controversial
  | top
  | best
  | hot
  | trendingDefault
  deriving DecidableEq

/-- `switch(sortType)` dispatch on the raw string. -/
def parseSortType (s : String) : SortType :=
  if s == "new" then .new
  else if s == "rising" then .rising
  else if s == "controversial" then .controversial
  else if s == "top" then .top
  else if s == "best" then .best
  else if s == "hot" then .hot
  else .trendingDefault

/-- `req.query.sort || 'recent'`: an absent (or empty, hence falsy)
parameter becomes the string `'recent'`, which the switch sends to the
default branch. -/
def sortTypeOfQuery (q : Option String) : SortType :=
  match q with
  | none => parseSortType "recent"
  | some s => if s == "" then parseSortType "recent" else parseSortType s

/-- The `timeFilter` window of each branch, as a width in days:
`'-2 hours'` for `rising`, `'-6 hours'` for `hot`, none otherwise. -/
def windowDays : SortType → Option ℚ
  | .rising => some (2 / 24)
  | .hot => some (6 / 24)
  | _ => none

/-- `posts.timestamp >= datetime('now', '-w hours')` when the branch has a
`timeFilter`, vacuously true otherwise. -/
def inWindow (now : ℚ) (st : SortType) (p : Post) : Bool :=
  match windowDays st with
  | none => true
  | some w => decide (now - w ≤ p.timestamp)

/-- The ORDER BY key list of each branch, in order; every key is DESC.
`none` models a NULL key value. -/
def orderKeys (now : ℚ) (st : SortType) (r : Row) : List (Option ℚ) :=
  match st with
  | .new => [some r.post.timestamp]
  | .rising => [some (engagement r : ℚ), some r.post.timestamp]
  | .controversial => [some (controversyKey r), some (engagement r : ℚ)]
  | .top => [some (engagement r : ℚ)]
  | .best => [some (bestScore r)]
  | .hot => [hotScore now r]
  | .trendingDefault => [some r.post.timestamp]

/-- Three-way comparison on `ℚ`. -/
def cmpQ (a b : ℚ) : Ordering :=
  if a < b then .lt else if b < a then .gt else .eq

/-- SQLite value comparison for a possibly-NULL numeric expression: NULL
sorts before every non-NULL value. -/
def cmpVal : Option ℚ → Option ℚ → Ordering
  | none, none => .eq
  | none, some _ => .lt
  | some _, none => .gt
  | some a, some b => cmpQ a b

/-- Lexicographic comparison of two ORDER BY key lists where every key is
DESC: on each key the comparison is reversed, so larger values (and, last,
NULLs) sort later in the `lt`-first order. -/
def cmpKeyLists : List (Option ℚ) → List (Option ℚ) → Ordering
  | [], _ => .eq
  | _ :: _, [] => .eq
  | a :: l, b :: m =>
    match cmpVal b a with
    | .eq => cmpKeyLists l m
    | o => o

/-- The comparator induced by a branch's ORDER BY clause: `lt` means the
first row sorts strictly before the second. -/
def rowCmp (now : ℚ) (st : SortType) (a b : Row) : Ordering :=
  cmpKeyLists (orderKeys now st a) (orderKeys now st b)

/-- Non-strict version of `rowCmp` used by the sorting routine. -/
def rowLe (now : ℚ) (st : SortType) (a b : Row) : Bool :=
  match rowCmp now st a b with
  | .gt => false
  | _ => true

/-- Insert a row into a sorted list of rows. -/
def insertSorted (le : Row → Row → Bool) (x : Row) : List Row → List Row
  | [] => [x]
  | y :: ys => if le x y then x :: y :: ys else y :: insertSorted le x ys

/-- Sort the result rows by the ORDER BY comparator. -/
def sortRows (le : Row → Row → Bool) : List Row → List Row
  | [] => []
  | x :: xs => insertSorted le x (sortRows le xs)

/-- `GET /api/posts`: resolve the strategy from the query string, apply the
`timeFilter` WHERE clause, compute the `baseQuery` counters for the
surviving posts, and sort by the branch's ORDER BY keys. -/
def rank (now : ℚ) (posts : List Post) (rs : List Reaction) (reps : List Reply)
    (q : Option String) : List Row :=
  sortRows (rowLe now (sortTypeOfQuery q))
    ((posts.filter (inWindow now (sortTypeOfQuery q))).map (mkRow rs reps))

/-- The sequence of posts underlying the ranked rows. -/
def rankedPosts (now : ℚ) (posts : List Post) (rs : List Reaction) (reps : List Reply)
    (q : Option String) : List Post :=
  (rank now posts rs reps q).map Row.post

/-- The entry of `getReactionsForPosts`'s map for one post: the
`GROUP BY post_id, type` counts restricted to that post, `{}` (here `[]`)
when the post has no reactions (the `reactionsMap[row.id] || {}` default). -/
def reactionBreakdown (rs : List Reaction) (pid : Nat) : List (String × Nat) :=
  (((rs.filter (fun r => r.post_id == pid)).map Reaction.type).dedup).map
    (fun t => (t, (rs.filter (fun r => r.post_id == pid && r.type == t)).length))

/-- `text.trim()`: strip leading and trailing whitespace.  Implemented over
the character list so that it evaluates on literals. -/
def jsTrim (s : String) : String :=
  String.mk (((s.data.dropWhile Char.isWhitespace).reverse.dropWhile Char.isWhitespace).reverse)

/-- The persistent store: the three SQLite tables. -/
structure DB where
  posts : List Post
  reactions : List Reaction
  replies : List Reply
  deriving DecidableEq

/-- `validTypes` of `POST /api/posts/:id/react`. -/
def validTypes : List String := ["love", "haha", "sad", "angry", "fire"]

/-- Outcome of `POST /api/posts/:id/react`: 400 on an invalid type, else
200 with the per-type reaction counts of the post. -/
inductive ReactResult where
  | badRequest
  | ok (reactions : List (String × Nat))
  deriving DecidableEq

/-- `POST /api/posts/:id/react`.  The handler INSERTs without any
existence check on the post; the schema's FOREIGN KEY is never enforced
because the connection never issues `PRAGMA foreign_keys = ON` (SQLite
foreign keys are off by default), so the INSERT succeeds for any post id. -/
def react (db : DB) (pid : Nat) (ty : Option String) (newId : Nat) (ts : ℚ) :
    ReactResult × DB :=
  match ty with
  | some t =>
    if t ∈ validTypes then
      let db2 : DB := { db with reactions := db.reactions ++ [⟨newId, pid, t, ts⟩] }
      (.ok (reactionBreakdown db2.reactions pid), db2)
    else (.badRequest, db)
  | none => (.badRequest, db)

/-- Outcome of `POST /api/posts/:id/reply`. -/
inductive ReplyResult where
  | badRequest
  | ok (newId : Nat) (pid : Nat) (text : String) (image : Option String)
  deriving DecidableEq

/-- `POST /api/posts/:id/reply`: rejects blank text, otherwise INSERTs the
reply — again with no existence check on the post and no enforced foreign
key. -/
def postReply (db : DB) (pid : Nat) (text : String) (image : Option String)
    (newId : Nat) (ts : ℚ) : ReplyResult × DB :=
  if jsTrim text == "" then (.badRequest, db)
  else
    (.ok newId pid (jsTrim text) image,
      { db with replies := db.replies ++ [⟨newId, pid, jsTrim text, image, ts⟩] })

/-- `DELETE /api/posts/:id` for a numeric id: delete the replies rows, then
the reactions rows, then the post row; report 404 only when the final
DELETE affected no row (`this.changes === 0`). -/
def deletePost (db : DB) (pid : Nat) : Nat × DB :=
  let db1 : DB := { db with replies := db.replies.filter (fun r => !(r.post_id == pid)) }
  let db2 : DB := { db1 with reactions := db1.reactions.filter (fun r => !(r.post_id == pid)) }
  let remaining := db2.posts.filter (fun p => !(p.id == pid))
  if remaining.length == db2.posts.length then (404, db2)
  else (200, { db2 with posts := remaining })

/-- `validMoods` of `POST /api/posts`. -/
def validMoods : List String :=
  ["none", "love", "happy", "sad", "angry", "anxious", "excited"]

/-- The JSON body answered by `POST /api/posts` on success. -/
structure CreatedPost where
  id : Nat
  text : String
  mood : String
  image : Option String
  likes : Nat
  reposts : Nat
  deriving DecidableEq

/-- `POST /api/posts`: reject absent/blank text and over-long text;
otherwise create the post with `safeMood`, which silently coerces any mood
outside `validMoods` (including an absent one) to `'none'`. -/
def createPost (text : Option String) (mood : Option String) (image : Option String)
    (newId : Nat) : Except (Nat × String) CreatedPost :=
  match text with
  | none => .error (400, "Post cannot be empty")
  | some t =>
    if jsTrim t == "" then .error (400, "Post cannot be empty")
    else if 280 < (jsTrim t).length then .error (400, "Max 280 characters")
    else
      let safeMood :=
        match mood with
        | some m => if m ∈ validMoods then m else "none"
        | none => "none"
      .ok { id := newId, text := jsTrim t, mood := safeMood, image := image,
            likes := 0, reposts := 0 }

/-! ### Aggregation lemmas: the grouped/LEFT-JOINed counters are the direct
per-post counts. -/

theorem find_map_key (keys : List Nat) (f : Nat → Nat) (k : Nat) :
    (keys.map (fun x => (x, f x))).find? (fun kv => kv.1 == k)
      = if k ∈ keys then some (k, f k) else none := by
  induction keys with
  | nil => simp
  | cons a l ih =>
    rw [List.map_cons, List.find?_cons]
    by_cases h : a = k
    · subst h
      simp
    · have hb : ((a, f a).1 == k) = false := by simpa using h
      rw [hb, ih]
      simp [List.mem_cons, Ne.symm h]

theorem lookupCount_countGroupKey (l : List α) (key : α → Nat) (k : Nat) :
    lookupCount (countGroupKey l key) k = (l.filter (fun x => key x == k)).length := by
  unfold lookupCount countGroupKey
  rw [find_map_key]
  by_cases h : k ∈ (l.map key).dedup
  · simp [h]
  · simp only [h, if_false]
    symm
    rw [List.length_eq_zero, List.filter_eq_nil_iff]
    intro x hx hkey
    exact h (List.mem_dedup.mpr (List.mem_map.mpr ⟨x, hx, by simpa using hkey⟩))

@[simp] theorem mkRow_post (rs : List Reaction) (reps : List Reply) (p : Post) :
    (mkRow rs reps p).post = p := rfl

@[simp] theorem mkRow_reaction_count (rs : List Reaction) (reps : List Reply) (p : Post) :
    (mkRow rs reps p).reaction_count = (rs.filter (fun r => r.post_id == p.id)).length := by
  unfold mkRow countGroup
  simp [lookupCount_countGroupKey]

@[simp] theorem mkRow_reply_count (rs : List Reaction) (reps : List Reply) (p : Post) :
    (mkRow rs reps p).reply_count = (reps.filter (fun r => r.post_id == p.id)).length := by
  unfold mkRow replyCountGroup
  simp [lookupCount_countGroupKey]

theorem lookup_type_count (rs : List Reaction) (t : String) (k : Nat) :
    lookupCount (countGroup rs (fun r => r.type == t)) k
      = (rs.filter (fun r => r.post_id == k && r.type == t)).length := by
  unfold countGroup
  rw [lookupCount_countGroupKey, List.filter_filter]

@[simp] theorem mkRow_love_count (rs : List Reaction) (reps : List Reply) (p : Post) :
    (mkRow rs reps p).love_count
      = (rs.filter (fun r => r.post_id == p.id && r.type == "love")).length := by
  unfold mkRow
  simp [lookup_type_count]

@[simp] theorem mkRow_happy_count (rs : List Reaction) (reps : List Reply) (p : Post) :
    (mkRow rs reps p).happy_count
      = (rs.filter (fun r => r.post_id == p.id && r.type == "haha")).length := by
  unfold mkRow
  simp [lookup_type_count]

@[simp] theorem mkRow_angry_count (rs : List Reaction) (reps : List Reply) (p : Post) :
    (mkRow rs reps p).angry_count
      = (rs.filter (fun r => r.post_id == p.id && r.type == "angry")).length := by
  unfold mkRow
  simp [lookup_type_count]

@[simp] theorem mkRow_sad_count (rs : List Reaction) (reps : List Reply) (p : Post) :
    (mkRow rs reps p).sad_count
      = (rs.filter (fun r => r.post_id == p.id && r.type == "sad")).length := by
  unfold mkRow
  simp [lookup_type_count]

/-! ### Sorting lemmas -/

theorem mem_insertSorted (le : Row → Row → Bool) (x y : Row) (l : List Row) :
    y ∈ insertSorted le x l ↔ y = x ∨ y ∈ l := by
  induction l with
  | nil => simp [insertSorted]
  | cons a l ih =>
    unfold insertSorted
    by_cases h : le x a = true
    · rw [if_pos h]
      simp only [List.mem_cons]
    · rw [if_neg h]
      simp only [List.mem_cons, ih]
      tauto

theorem mem_sortRows (le : Row → Row → Bool) (y : Row) (l : List Row) :
    y ∈ sortRows le l ↔ y ∈ l := by
  induction l with
  | nil => simp [sortRows]
  | cons a l ih =>
    unfold sortRows
    rw [mem_insertSorted]
    simp [ih]

theorem mem_rankedPosts (now : ℚ) (posts : List Post) (rs : List Reaction)
    (reps : List Reply) (q : Option String) (p : Post) :
    p ∈ rankedPosts now posts rs reps q
      ↔ p ∈ posts ∧ inWindow now (sortTypeOfQuery q) p = true := by
  unfold rankedPosts rank
  simp only [List.mem_map, mem_sortRows]
  constructor
  · rintro ⟨row, hrow, hpost⟩
    obtain ⟨p0, hp0, hmk⟩ := hrow
    rw [← hmk] at hpost
    simp only [mkRow_post] at hpost
    subst hpost
    exact List.mem_filter.mp hp0
  · rintro ⟨hp, hw⟩
    exact ⟨mkRow rs reps p, ⟨p, List.mem_filter.mpr ⟨hp, hw⟩, rfl⟩, mkRow_post rs reps p⟩

/-! ### Comparator lemmas -/

theorem cmpQ_self (a : ℚ) : cmpQ a a = .eq := by
  unfold cmpQ
  simp

theorem cmpVal_self (a : Option ℚ) : cmpVal a a = .eq := by
  cases a with
  | none => rfl
  | some x => exact cmpQ_self x

theorem cmpKeyLists_self (l : List (Option ℚ)) : cmpKeyLists l l = .eq := by
  induction l with
  | nil => rfl
  | cons a l ih =>
    unfold cmpKeyLists
    rw [cmpVal_self]
    exact ih

theorem cmpQ_swap (a b : ℚ) : cmpQ b a = (cmpQ a b).swap := by
  unfold cmpQ
  rcases lt_trichotomy a b with h | h | h
  · simp [h, not_lt.mpr h.le, Ordering.swap]
  · simp [h, lt_irrefl, Ordering.swap]
  · simp [h, not_lt.mpr h.le, Ordering.swap]

theorem cmpVal_swap (a b : Option ℚ) : cmpVal b a = (cmpVal a b).swap := by
  cases a with
  | none =>
    cases b with
    | none => rfl
    | some y => rfl
  | some x =>
    cases b with
    | none => rfl
    | some y => exact cmpQ_swap x y

theorem cmpKeyLists_swap (l m : List (Option ℚ)) :
    cmpKeyLists m l = (cmpKeyLists l m).swap := by
  induction l generalizing m with
  | nil => cases m <;> rfl
  | cons a l ih =>
    cases m with
    | nil => rfl
    | cons b m =>
      show cmpKeyLists (b :: m) (a :: l) = (cmpKeyLists (a :: l) (b :: m)).swap
      unfold cmpKeyLists
      rw [cmpVal_swap a b]
      cases hab : cmpVal a b with
      | lt => rfl
      | eq => exact ih m
      | gt => rfl

theorem cmpKeyLists_single (x y : Option ℚ) : cmpKeyLists [x] [y] = cmpVal y x := by
  unfold cmpKeyLists
  cases h : cmpVal y x <;> rfl

@[ext] theorem Row.ext_fields (a b : Row) (h1 : a.post = b.post)
    (h2 : a.reaction_count = b.reaction_count) (h3 : a.reply_count = b.reply_count)
    (h4 : a.love_count = b.love_count) (h5 : a.happy_count = b.happy_count)
    (h6 : a.angry_count = b.angry_count) (h7 : a.sad_count = b.sad_count) : a = b := by
  cases a
  cases b
  simp_all

/-! ### Claims -/

def tiePostA : Post := ⟨1, "a", "none", 0, 0, none, 100⟩

def tiePostB : Post := ⟨2, "b", "none", 0, 0, none, 100⟩

/-- C2 counterexample: under the `new` strategy two distinct posts with the
same timestamp tie on all ORDER BY keys, yet the comparator returns `eq`,
not the strict `lt` that an ascending-identifier fallback would give: no
identifier tie-break exists in any ORDER BY clause of the source. -/
theorem tie_break_counterexample :
    orderKeys 0 .new (mkRow [] [] tiePostA) = orderKeys 0 .new (mkRow [] [] tiePostB)
    ∧ tiePostA.id < tiePostB.id
    ∧ rowCmp 0 .new (mkRow [] [] tiePostA) (mkRow [] [] tiePostB) = .eq
    ∧ ¬ rowCmp 0 .new (mkRow [] [] tiePostA) (mkRow [] [] tiePostB) = .lt := by
  have hcmp : rowCmp 0 .new (mkRow [] [] tiePostA) (mkRow [] [] tiePostB) = .eq :=
    cmpKeyLists_self [some (100 : ℚ)]
  exact ⟨rfl, by decide, hcmp, by rw [hcmp]; decide⟩

/-- C2 (amended): each strategy's comparator compares only the strategy's
described ORDER BY keys — posts that tie on every key are compared equal
(there is no identifier fallback in the query), and the comparison is
antisymmetric under swapping. -/
theorem comparator_keys_amended (now : ℚ) (st : SortType) (a b : Row)
    (h : orderKeys now st a = orderKeys now st b) :
    rowCmp now st a b = .eq ∧ rowCmp now st b a = (rowCmp now st a b).swap := by
  constructor
  · unfold rowCmp
    rw [h]
    exact cmpKeyLists_self _
  · unfold rowCmp
    exact cmpKeyLists_swap _ _

/-- C2 witness: the amended statement at two concrete same-timestamp rows. -/
theorem comparator_keys_amended_witness :
    rowCmp 2 .top (mkRow [] [] tiePostA) (mkRow [] [] tiePostB) = .eq :=
  (comparator_keys_amended 2 .top (mkRow [] [] tiePostA) (mkRow [] [] tiePostB) rfl).1

def bestPostA : Post := ⟨1, "a", "none", 10, 0, none, 100⟩

def bestPostB : Post := ⟨2, "b", "none", 0, 5, none, 100⟩

/-- C6 counterexample: posts A (likes=10) and B (reposts=5) both get best
score 10 and tie, but the `best` ORDER BY comparator returns `eq` for the
pair — it does not fall back to ascending identifier order (`lt`). -/
theorem best_tie_counterexample :
    bestScore (mkRow [] [] bestPostA) = 10
    ∧ bestScore (mkRow [] [] bestPostB) = 10
    ∧ bestPostA.id < bestPostB.id
    ∧ rowCmp 0 .best (mkRow [] [] bestPostA) (mkRow [] [] bestPostB) = .eq
    ∧ ¬ rowCmp 0 .best (mkRow [] [] bestPostA) (mkRow [] [] bestPostB) = .lt := by
  have hA : bestScore (mkRow [] [] bestPostA) = 10 := by
    norm_num [bestScore, bestPostA]
  have hB : bestScore (mkRow [] [] bestPostB) = 10 := by
    norm_num [bestScore, bestPostB]
  have hcmp : rowCmp 0 .best (mkRow [] [] bestPostA) (mkRow [] [] bestPostB) = .eq := by
    show cmpKeyLists [some (bestScore (mkRow [] [] bestPostA))]
      [some (bestScore (mkRow [] [] bestPostB))] = .eq
    rw [cmpKeyLists_single, hA, hB]
    exact cmpVal_self _
  exact ⟨hA, hB, by decide, hcmp, by rw [hcmp]; decide⟩

/-- C6 (amended): the `best` sort key is
`likes + reposts*2 + reaction_count*1.5 + reply_count*0.5`, ordered
descending; rows that tie on the score are compared equal — there is no
identifier fallback, so the relative order of tied rows is not fixed by
the ORDER BY clause. -/
theorem best_score_amended (now : ℚ) (a b : Row) :
    bestScore a = (a.post.likes : ℚ) + (a.post.reposts : ℚ) * 2
        + (a.reaction_count : ℚ) * (3 / 2) + (a.reply_count : ℚ) * (1 / 2)
    ∧ (bestScore b < bestScore a → rowCmp now .best a b = .lt)
    ∧ (bestScore a = bestScore b → rowCmp now .best a b = .eq) := by
  refine ⟨by norm_num [bestScore], ?_, ?_⟩
  · intro h
    show cmpKeyLists [some (bestScore a)] [some (bestScore b)] = .lt
    rw [cmpKeyLists_single]
    show cmpQ (bestScore b) (bestScore a) = .lt
    unfold cmpQ
    rw [if_pos h]
  · intro h
    show cmpKeyLists [some (bestScore a)] [some (bestScore b)] = .eq
    rw [cmpKeyLists_single, h]
    exact cmpVal_self _

/-- C6 witness: the amended statement evaluated at the two tied posts. -/
theorem best_score_amended_witness :
    rowCmp 3 .best (mkRow [] [] bestPostA) (mkRow [] [] bestPostB) = .eq :=
  (best_score_amended 3 (mkRow [] [] bestPostA) (mkRow [] [] bestPostB)).2.2
    (by norm_num [bestScore, bestPostA, bestPostB])

/-! ### C5: unknown strategy names fall back to the default branch -/

theorem parseSortType_unknown (s : String) (h1 : s ≠ "new") (h2 : s ≠ "rising")
    (h3 : s ≠ "controversial") (h4 : s ≠ "top") (h5 : s ≠ "best") (h6 : s ≠ "hot") :
    parseSortType s = .trendingDefault := by
  simp [parseSortType, h1, h2, h3, h4, h5, h6]

theorem rowLe_default_eq_new (now : ℚ) : rowLe now .trendingDefault = rowLe now .new := rfl

theorem inWindow_default_eq_new (now : ℚ) :
    inWindow now .trendingDefault = inWindow now .new := rfl

/-- C5: any strategy name other than the six dedicated switch cases (hence
also `"banana"`, `"trending"` and the absent / empty parameter) resolves to
the default branch, and the ranking it produces is identical to the `new`
strategy's ranking on every input; the ranking operation is total, so no
input string makes it fail. -/
theorem unknown_strategy_defaults (now : ℚ) (posts : List Post) (rs : List Reaction)
    (reps : List Reply) (s : String)
    (h : s ∉ (["new", "rising", "controversial", "top", "best", "hot"] : List String)) :
    rank now posts rs reps (some s) = rank now posts rs reps (some "new")
    ∧ rank now posts rs reps none = rank now posts rs reps (some "new") := by
  simp only [List.mem_cons, List.not_mem_nil, or_false, not_or] at h
  obtain ⟨h1, h2, h3, h4, h5, h6⟩ := h
  have hrecent : parseSortType "recent" = .trendingDefault := by
    simp [parseSortType]
  have hs : sortTypeOfQuery (some s) = .trendingDefault := by
    by_cases he : s = ""
    · subst he
      simp [sortTypeOfQuery, hrecent]
    · simp [sortTypeOfQuery, he, parseSortType_unknown s h1 h2 h3 h4 h5 h6]
  have hnew : sortTypeOfQuery (some "new") = .new := by
    simp [sortTypeOfQuery, parseSortType]
  have hnone : sortTypeOfQuery none = .trendingDefault := hrecent
  constructor
  · unfold rank
    rw [hs, hnew, rowLe_default_eq_new, inWindow_default_eq_new]
  · unfold rank
    rw [hnone, hnew, rowLe_default_eq_new, inWindow_default_eq_new]

def unkPost : Post := ⟨4, "u", "none", 2, 1, none, 7⟩

/-- C5 witness: the strategy name `"banana"` ranks exactly like `"new"` on a
concrete store, and so does the absent parameter. -/
theorem unknown_strategy_defaults_witness :
    rank 9 [unkPost] [] [] (some "banana") = rank 9 [unkPost] [] [] (some "new")
    ∧ rank 9 [unkPost] [] [] none = rank 9 [unkPost] [] [] (some "new") :=
  unknown_strategy_defaults 9 [unkPost] [] [] "banana" (by decide)

/-! ### C4: time windows exclude posts entirely -/

/-- C4: a post older than 6 hours (in days, `6/24`) at evaluation time is
absent from the `hot` result entirely, one older than 2 hours is absent
from `rising`, while `new` and `trending` never exclude a stored post by
age. -/
theorem window_filtering (now : ℚ) (posts : List Post) (rs : List Reaction)
    (reps : List Reply) (p : Post) (hp : p ∈ posts) :
    (6 / 24 < now - p.timestamp → p ∉ rankedPosts now posts rs reps (some "hot"))
    ∧ (2 / 24 < now - p.timestamp → p ∉ rankedPosts now posts rs reps (some "rising"))
    ∧ p ∈ rankedPosts now posts rs reps (some "new")
    ∧ p ∈ rankedPosts now posts rs reps (some "trending") := by
  have hhot : sortTypeOfQuery (some "hot") = .hot := by
    simp [sortTypeOfQuery, parseSortType]
  have hrising : sortTypeOfQuery (some "rising") = .rising := by
    simp [sortTypeOfQuery, parseSortType]
  refine ⟨?_, ?_, ?_, ?_⟩
  · intro h hmem
    rw [mem_rankedPosts, hhot] at hmem
    have hw := hmem.2
    unfold inWindow windowDays at hw
    simp only [decide_eq_true_eq] at hw
    linarith
  · intro h hmem
    rw [mem_rankedPosts, hrising] at hmem
    have hw := hmem.2
    unfold inWindow windowDays at hw
    simp only [decide_eq_true_eq] at hw
    linarith
  · rw [mem_rankedPosts]
    exact ⟨hp, rfl⟩
  · rw [mem_rankedPosts]
    exact ⟨hp, rfl⟩

def sevenHourPost : Post := ⟨1, "w", "none", 0, 0, none, 0⟩

/-- C4 witness: a post created 7 hours (`7/24` days) before the evaluation
time is absent from `hot` and from `rising` and present in `new` and
`trending`. -/
theorem window_filtering_witness :
    sevenHourPost ∉ rankedPosts (7 / 24) [sevenHourPost] [] [] (some "hot")
    ∧ sevenHourPost ∉ rankedPosts (7 / 24) [sevenHourPost] [] [] (some "rising")
    ∧ sevenHourPost ∈ rankedPosts (7 / 24) [sevenHourPost] [] [] (some "new")
    ∧ sevenHourPost ∈ rankedPosts (7 / 24) [sevenHourPost] [] [] (some "trending") := by
  obtain ⟨w1, w2, w3, w4⟩ :=
    window_filtering (7 / 24) [sevenHourPost] [] [] sevenHourPost (by decide)
  exact ⟨w1 (by norm_num [sevenHourPost]), w2 (by norm_num [sevenHourPost]), w3, w4⟩

/-! ### C1: the `hot` decay key -/

def hotPost1 : Post := ⟨1, "a", "none", 1, 0, none, 100⟩

/-- C1 counterexample: a post with engagement 1 created 3 hours (1/8 day)
before the evaluation time gets hot key `1000 / (1/8) = 8000` — the code
divides by the julianday difference in DAYS, not by the 3 fractional hours
the claim asserts (`1000/3`); and at zero elapsed time the key is NULL
(`none`), not an epsilon-guarded positive value. -/
theorem hot_key_counterexample :
    hotScore (100 + 1 / 8) (mkRow [] [] hotPost1) = some 8000
    ∧ (engagement (mkRow [] [] hotPost1) : ℚ) = 1
    ∧ ¬ (8000 : ℚ) = (engagement (mkRow [] [] hotPost1) : ℚ) * 1000 / 3
    ∧ inWindow (100 + 1 / 8) .hot hotPost1 = true
    ∧ hotScore 100 (mkRow [] [] hotPost1) = none := by
  have heng : (engagement (mkRow [] [] hotPost1) : ℚ) = 1 := by
    norm_num [engagement, hotPost1]
  refine ⟨?_, heng, ?_, ?_, ?_⟩
  · norm_num [hotScore, engagement, hotPost1]
  · rw [heng]
    norm_num
  · norm_num [inWindow, windowDays, hotPost1]
  · norm_num [hotScore, hotPost1]

/-- C1 (amended): for a post with nonzero elapsed time the `hot` sort key is
`engagement * 1000` divided by the fractional number of DAYS since
creation; at zero elapsed time the SQL division yields NULL (no epsilon
guard), and the NULL-keyed row sorts after every row with a defined key;
at negative elapsed time the key is negative (inverted), not
epsilon-floored. -/
theorem hot_key_amended (now : ℚ) (r s : Row) :
    (¬ now - r.post.timestamp = 0 →
        hotScore now r = some ((engagement r : ℚ) * 1000 / (now - r.post.timestamp)))
    ∧ (now - r.post.timestamp = 0 → hotScore now r = none)
    ∧ (now - r.post.timestamp = 0 → ¬ now - s.post.timestamp = 0 →
        rowCmp now .hot r s = .gt)
    ∧ (now < r.post.timestamp → 0 < engagement r →
        ∃ v, hotScore now r = some v ∧ v < 0) := by
  refine ⟨?_, ?_, ?_, ?_⟩
  · intro h
    unfold hotScore
    rw [if_neg h]
  · intro h
    unfold hotScore
    rw [if_pos h]
  · intro h1 h2
    show cmpKeyLists [hotScore now r] [hotScore now s] = .gt
    rw [cmpKeyLists_single]
    unfold hotScore
    rw [if_pos h1, if_neg h2]
    rfl
  · intro h1 h2
    have hd : ¬ now - r.post.timestamp = 0 := by
      have hneg : now - r.post.timestamp < 0 := by linarith
      exact ne_of_lt hneg
    refine ⟨(engagement r : ℚ) * 1000 / (now - r.post.timestamp), ?_, ?_⟩
    · unfold hotScore
      rw [if_neg hd]
    · apply div_neg_of_pos_of_neg
      · have : (0 : ℚ) < (engagement r : ℚ) := by exact_mod_cast h2
        linarith
      · linarith

def hotPost2 : Post := ⟨2, "b", "none", 0, 0, none, 99⟩

/-- C1 witness: the amended statement evaluated concretely — a defined key
at 3 hours of age, NULL at zero elapsed time sorting after a defined-key
row, and a negative key for a future-dated engaged post. -/
theorem hot_key_amended_witness :
    hotScore (100 + 1 / 8) (mkRow [] [] hotPost1)
        = some ((engagement (mkRow [] [] hotPost1) : ℚ) * 1000 / ((100 + 1 / 8) - 100))
    ∧ hotScore 100 (mkRow [] [] hotPost1) = none
    ∧ rowCmp 100 .hot (mkRow [] [] hotPost1) (mkRow [] [] hotPost2) = .gt
    ∧ ∃ v, hotScore 50 (mkRow [] [] hotPost1) = some v ∧ v < 0 := by
  obtain ⟨a1, a2, -, -⟩ :=
    hot_key_amended (100 + 1 / 8) (mkRow [] [] hotPost1) (mkRow [] [] hotPost1)
  obtain ⟨-, b2, b3, -⟩ :=
    hot_key_amended 100 (mkRow [] [] hotPost1) (mkRow [] [] hotPost2)
  obtain ⟨-, -, -, c4⟩ :=
    hot_key_amended 50 (mkRow [] [] hotPost1) (mkRow [] [] hotPost1)
  refine ⟨a1 (by norm_num [hotPost1]), b2 (by norm_num [hotPost1]), ?_, ?_⟩
  · exact b3 (by norm_num [hotPost1]) (by norm_num [hotPost2])
  · exact c4 (by norm_num [hotPost1]) (by norm_num [engagement, hotPost1])

/-! ### C3: the `controversial` ratio -/

def cPostX : Post := ⟨1, "x", "none", 0, 0, none, 100⟩

def cPostY : Post := ⟨2, "y", "none", 0, 0, none, 100⟩

def cReacts : List Reaction :=
  [⟨1, 1, "angry", 100⟩, ⟨2, 1, "angry", 100⟩, ⟨3, 1, "angry", 100⟩,
   ⟨4, 1, "sad", 100⟩, ⟨5, 1, "sad", 100⟩,
   ⟨6, 2, "angry", 100⟩, ⟨7, 2, "angry", 100⟩, ⟨8, 2, "angry", 100⟩,
   ⟨9, 2, "sad", 100⟩, ⟨10, 2, "sad", 100⟩, ⟨11, 2, "love", 100⟩]

/-- C3: the controversial key is `(angry+sad)/(love+haha)` for a positive
denominator and exactly `0` for a zero denominator regardless of the
numerator; a `fire` reaction changes none of the four ratio counters nor
the key; exact ratio ties are ordered by engagement descending; and the
spec's concrete example — X with angry=3, sad=2 and no positive reactions
(key 0) ranks behind Y with the same negatives plus one love (key 5). -/
theorem controversial_ratio_spec (now : ℚ) (a b : Row) (r0 : Reaction)
    (rs : List Reaction) (reps : List Reply) (p : Post) (hfire : r0.type = "fire") :
    (0 < a.love_count + a.happy_count →
        controversyKey a
          = ((a.angry_count : ℚ) + (a.sad_count : ℚ))
              / ((a.love_count : ℚ) + (a.happy_count : ℚ)))
    ∧ (a.love_count + a.happy_count = 0 → controversyKey a = 0)
    ∧ (controversyKey a = controversyKey b →
        rowCmp now .controversial a b = cmpQ (engagement b : ℚ) (engagement a : ℚ))
    ∧ controversyKey (mkRow (r0 :: rs) reps p) = controversyKey (mkRow rs reps p)
    ∧ (rank 200 [cPostX, cPostY] cReacts [] (some "controversial")).map
        (fun r => r.post.id) = [2, 1] := by
  refine ⟨?_, ?_, ?_, ?_, ?_⟩
  · intro h
    unfold controversyKey
    rw [if_pos h]
  · intro h
    unfold controversyKey
    rw [if_neg (by omega)]
  · intro h
    show cmpKeyLists
      [some (controversyKey a), some (engagement a : ℚ)]
      [some (controversyKey b), some (engagement b : ℚ)] = _
    unfold cmpKeyLists
    have he : cmpVal (some (controversyKey b)) (some (controversyKey a)) = .eq := by
      rw [h]
      exact cmpVal_self _
    rw [he, cmpKeyLists_single]
    rfl
  · have hlove : (mkRow (r0 :: rs) reps p).love_count = (mkRow rs reps p).love_count := by
      simp [List.filter_cons, hfire]
    have hhappy : (mkRow (r0 :: rs) reps p).happy_count = (mkRow rs reps p).happy_count := by
      simp [List.filter_cons, hfire]
    have hangry : (mkRow (r0 :: rs) reps p).angry_count = (mkRow rs reps p).angry_count := by
      simp [List.filter_cons, hfire]
    have hsad : (mkRow (r0 :: rs) reps p).sad_count = (mkRow rs reps p).sad_count := by
      simp [List.filter_cons, hfire]
    unfold controversyKey
    rw [hlove, hhappy, hangry, hsad]
  · have hX : mkRow cReacts [] cPostX = ⟨cPostX, 5, 0, 0, 0, 3, 2⟩ := by
      apply Row.ext_fields <;> simp [cReacts, cPostX]
    have hY : mkRow cReacts [] cPostY = ⟨cPostY, 6, 0, 1, 0, 3, 2⟩ := by
      apply Row.ext_fields <;> simp [cReacts, cPostY]
    have hq : sortTypeOfQuery (some "controversial") = SortType.controversial := by
      simp [sortTypeOfQuery, parseSortType]
    have hle : rowLe 200 .controversial ⟨cPostX, 5, 0, 0, 0, 3, 2⟩
        ⟨cPostY, 6, 0, 1, 0, 3, 2⟩ = false := by
      norm_num [rowLe, rowCmp, orderKeys, cmpKeyLists, cmpVal, cmpQ, controversyKey,
        engagement, cPostX, cPostY]
    unfold rank
    rw [hq]
    simp only [List.filter, inWindow, windowDays, List.map, hX, hY, sortRows,
      insertSorted, hle]
    simp [cPostX, cPostY]

def fireReact : Reaction := ⟨21, 1, "fire", 100⟩

/-- C3 witness: the key equations, fire-neutrality and tie-break evaluated
at the concrete example store. -/
theorem controversial_ratio_spec_witness :
    controversyKey (mkRow cReacts [] cPostY) = 5
    ∧ controversyKey (mkRow cReacts [] cPostX) = 0
    ∧ controversyKey (mkRow (fireReact :: cReacts) [] cPostX)
        = controversyKey (mkRow cReacts [] cPostX)
    ∧ rowCmp 200 .controversial (mkRow cReacts [] cPostX) (mkRow cReacts [] cPostX)
        = cmpQ (engagement (mkRow cReacts [] cPostX) : ℚ)
            (engagement (mkRow cReacts [] cPostX) : ℚ)
    ∧ (rank 200 [cPostX, cPostY] cReacts [] (some "controversial")).map
        (fun r => r.post.id) = [2, 1] := by
  obtain ⟨k1, -, -, -, k5⟩ :=
    controversial_ratio_spec 200 (mkRow cReacts [] cPostY) (mkRow cReacts [] cPostX)
      fireReact cReacts [] cPostX rfl
  obtain ⟨-, k2, kt, k3, -⟩ :=
    controversial_ratio_spec 200 (mkRow cReacts [] cPostX) (mkRow cReacts [] cPostX)
      fireReact cReacts [] cPostX rfl
  refine ⟨?_, ?_, k3, kt rfl, k5⟩
  · have hY : mkRow cReacts [] cPostY = ⟨cPostY, 6, 0, 1, 0, 3, 2⟩ := by
      apply Row.ext_fields <;> simp [cReacts, cPostY]
    rw [k1 (by simp [cReacts, cPostY]), hY]
    norm_num
  · exact k2 (by simp [cReacts, cPostX])

/-! ### C7: derived metrics are recomputed from the event set -/

/-- C7: every row of the ranked output carries exactly the counters
recomputed from the current reactions and replies — total reactions,
replies, and the per-type counts of `love`, `haha` (source column
`happy_count`), `angry` and `sad` — and a post whose reaction list is
empty gets an empty per-type reaction mapping instead of an error. -/
theorem metrics_recomputed (now : ℚ) (posts : List Post) (rs : List Reaction)
    (reps : List Reply) (q : Option String) (row : Row)
    (h : row ∈ rank now posts rs reps q) :
    row.reaction_count = (rs.filter (fun r => r.post_id == row.post.id)).length
    ∧ row.reply_count = (reps.filter (fun r => r.post_id == row.post.id)).length
    ∧ row.love_count
        = (rs.filter (fun r => r.post_id == row.post.id && r.type == "love")).length
    ∧ row.happy_count
        = (rs.filter (fun r => r.post_id == row.post.id && r.type == "haha")).length
    ∧ row.angry_count
        = (rs.filter (fun r => r.post_id == row.post.id && r.type == "angry")).length
    ∧ row.sad_count
        = (rs.filter (fun r => r.post_id == row.post.id && r.type == "sad")).length
    ∧ (rs.filter (fun r => r.post_id == row.post.id) = [] →
        reactionBreakdown rs row.post.id = []) := by
  unfold rank at h
  rw [mem_sortRows] at h
  obtain ⟨p0, hp0, hmk⟩ := List.mem_map.mp h
  subst hmk
  refine ⟨mkRow_reaction_count rs reps p0, mkRow_reply_count rs reps p0,
    mkRow_love_count rs reps p0, mkRow_happy_count rs reps p0,
    mkRow_angry_count rs reps p0, mkRow_sad_count rs reps p0, ?_⟩
  intro hempty
  unfold reactionBreakdown
  simp only [mkRow_post] at hempty ⊢
  rw [hempty]
  simp

def aggPostX : Post := ⟨1, "p", "none", 0, 0, none, 50⟩

def aggPostZ : Post := ⟨2, "q", "none", 0, 0, none, 40⟩

def aggReacts : List Reaction :=
  [⟨1, 1, "love", 50⟩, ⟨2, 1, "love", 50⟩, ⟨3, 1, "love", 50⟩,
   ⟨4, 1, "angry", 50⟩, ⟨5, 1, "angry", 50⟩]

/-- C7 witness: 3 `love` and 2 `angry` reactions on post X yield
`love_count = 3`, `angry_count = 2`, `reaction_count = 5`, while post Z
with no events gets all-zero metrics and an empty reaction mapping. -/
theorem metrics_recomputed_witness :
    (mkRow aggReacts [] aggPostX).love_count = 3
    ∧ (mkRow aggReacts [] aggPostX).angry_count = 2
    ∧ (mkRow aggReacts [] aggPostX).reaction_count = 5
    ∧ (mkRow aggReacts [] aggPostZ).reaction_count = 0
    ∧ (mkRow aggReacts [] aggPostZ).reply_count = 0
    ∧ (mkRow aggReacts [] aggPostZ).love_count = 0
    ∧ (mkRow aggReacts [] aggPostZ).happy_count = 0
    ∧ (mkRow aggReacts [] aggPostZ).angry_count = 0
    ∧ (mkRow aggReacts [] aggPostZ).sad_count = 0
    ∧ reactionBreakdown aggReacts aggPostZ.id = [] := by
  have hmemX : mkRow aggReacts [] aggPostX ∈
      rank 60 [aggPostX, aggPostZ] aggReacts [] (some "new") := by
    unfold rank
    rw [mem_sortRows]
    exact List.mem_map.mpr
      ⟨aggPostX, by simp [inWindow, windowDays, sortTypeOfQuery, parseSortType], rfl⟩
  have hmemZ : mkRow aggReacts [] aggPostZ ∈
      rank 60 [aggPostX, aggPostZ] aggReacts [] (some "new") := by
    unfold rank
    rw [mem_sortRows]
    exact List.mem_map.mpr
      ⟨aggPostZ, by simp [inWindow, windowDays, sortTypeOfQuery, parseSortType], rfl⟩
  obtain ⟨x1, -, x3, -, x5, -, -⟩ :=
    metrics_recomputed 60 [aggPostX, aggPostZ] aggReacts [] (some "new") _ hmemX
  obtain ⟨z1, z2, z3, z4, z5, z6, z7⟩ :=
    metrics_recomputed 60 [aggPostX, aggPostZ] aggReacts [] (some "new") _ hmemZ
  have hZempty : aggReacts.filter
      (fun r => r.post_id == (mkRow aggReacts [] aggPostZ).post.id) = [] := by
    simp [aggReacts, aggPostZ]
  refine ⟨?_, ?_, ?_, ?_, ?_, ?_, ?_, ?_, ?_, z7 hZempty⟩
  · rw [x3]
    simp [aggReacts, aggPostX]
  · rw [x5]
    simp [aggReacts, aggPostX]
  · rw [x1]
    simp [aggReacts, aggPostX]
  · rw [z1]
    simp [aggReacts, aggPostZ]
  · rw [z2]
    simp [aggReacts, aggPostZ]
  · rw [z3]
    simp [aggReacts, aggPostZ]
  · rw [z4]
    simp [aggReacts, aggPostZ]
  · rw [z5]
    simp [aggReacts, aggPostZ]
  · rw [z6]
    simp [aggReacts, aggPostZ]

/-! ### C8: dangling references are stored, not rejected -/

def db8 : DB := ⟨[⟨1, "hello", "none", 0, 0, none, 0⟩], [], []⟩

/-- C8 evaluation (the claim is the spec's intent, the code a slip): a
reaction and a reply naming post id 999, which does not exist in the
store, are both accepted — the handlers run the INSERT with no existence
check and the declared FOREIGN KEY is never enabled, so the writes succeed
and the dangling rows are stored instead of surfacing a failure. -/
theorem dangling_write_accepted :
    999 ∉ db8.posts.map Post.id
    ∧ (react db8 999 (some "love") 7 0).1 = ReactResult.ok [("love", 1)]
    ∧ (react db8 999 (some "love") 7 0).2.reactions = [⟨7, 999, "love", 0⟩]
    ∧ (postReply db8 999 "hi" none 8 0).1 = ReplyResult.ok 8 999 "hi" none
    ∧ (postReply db8 999 "hi" none 8 0).2.replies = [⟨8, 999, "hi", none, 0⟩] := by
  refine ⟨by decide, by decide, by decide, by decide, by decide⟩

/-! ### C9: delete of a missing post 404s only after cascading deletes -/

/-- C9: deleting a post id that does not exist answers 404, but only after
the replies rows and reactions rows carrying that post id have already
been removed — the posts table is untouched, yet the store is not left
unchanged whenever such (dangling) rows existed. -/
theorem delete_missing_post (db : DB) (pid : Nat) (h : pid ∉ db.posts.map Post.id) :
    (deletePost db pid).1 = 404
    ∧ (deletePost db pid).2.posts = db.posts
    ∧ (deletePost db pid).2.replies = db.replies.filter (fun r => !(r.post_id == pid))
    ∧ (deletePost db pid).2.reactions = db.reactions.filter (fun r => !(r.post_id == pid)) := by
  have hkeep : db.posts.filter (fun p => !(p.id == pid)) = db.posts := by
    apply List.filter_eq_self.mpr
    intro p hp
    simp only [Bool.not_eq_eq_eq_not, Bool.not_true, beq_eq_false_iff_ne, ne_eq]
    intro hid
    exact h (List.mem_map.mpr ⟨p, hp, hid⟩)
  simp only [deletePost]
  rw [hkeep]
  simp

def db9 : DB := ⟨[⟨1, "a", "none", 0, 0, none, 0⟩], [⟨5, 999, "love", 0⟩], [⟨6, 999, "x", none, 0⟩]⟩

/-- C9 witness: deleting the nonexistent id 999 from a store holding a
dangling reaction and reply on 999 answers 404 with the posts intact, yet
removes those rows — the store is changed on the error path. -/
theorem delete_missing_post_witness :
    (deletePost db9 999).1 = 404
    ∧ (deletePost db9 999).2.posts = db9.posts
    ∧ (deletePost db9 999).2.reactions = []
    ∧ (deletePost db9 999).2.replies = []
    ∧ ¬ db9.reactions = []
    ∧ ¬ db9.replies = [] := by
  obtain ⟨d1, d2, d3, d4⟩ := delete_missing_post db9 999 (by simp [db9])
  refine ⟨d1, d2, ?_, ?_, by simp [db9], by simp [db9]⟩
  · rw [d4]
    simp [db9]
  · rw [d3]
    simp [db9]

/-! ### C10: invalid moods are silently coerced to `'none'` -/

/-- C10: creating a post with non-blank, short-enough text never fails
because of the mood: any mood outside `validMoods` — including an absent
one — is silently replaced by `'none'` and the post is created. -/
theorem mood_coerced_to_none (text : String) (mood : Option String)
    (image : Option String) (newId : Nat)
    (h1 : ¬ jsTrim text = "") (h2 : (jsTrim text).length ≤ 280)
    (h3 : ∀ m, mood = some m → m ∉ validMoods) :
    createPost (some text) mood image newId
      = .ok { id := newId, text := jsTrim text, mood := "none", image := image,
              likes := 0, reposts := 0 } := by
  simp only [createPost]
  rw [if_neg (by simp [h1]), if_neg (by omega)]
  cases mood with
  | none => rfl
  | some m =>
    have hm : m ∉ validMoods := h3 m rfl
    simp [hm]

/-- C10 witness: text `"hello"` with the unknown mood `"banana"` creates
the post with mood `'none'`. -/
theorem mood_coerced_to_none_witness :
    createPost (some "hello") (some "banana") none 5
      = .ok { id := 5, text := "hello", mood := "none", image := none,
              likes := 0, reposts := 0 } := by
  have hjt : jsTrim "hello" = "hello" := by decide
  have h := mood_coerced_to_none "hello" (some "banana") none 5
    (by decide) (by decide)
    (by intro m hm; cases hm; decide)
  rw [hjt] at h
  exact h

end CampusConfessions
